import Mathlib

/-!
A formalisation of the MongoDB language-intelligence visitor
(`src/language/visitor.ts`): the completion-state data model, the
trigger-character injection, the per-node structural checks and the
enter-order traversal, together with proofs of the specification's
testable properties.

The Babel parser (`@babel/parser` / `@babel/traverse`) is an external
collaborator: it is modelled by an abstract `parse` function passed as a
parameter, returning `none` on parse failure (the TS code swallows the
thrown exception and `traverse(undefined, …)` is a no-op) and the
program's node list otherwise.  Concrete syntax trees appearing below
are the trees Babel produces for the stated inputs.
-/

namespace MongoVisitor

/-- Boolean infix test on character lists. -/
def listInfixOf (sub : List Char) : List Char → Bool
  | [] => sub.isEmpty
  | c :: rest => sub.isPrefixOf (c :: rest) || listInfixOf sub rest

/-- JavaScript `String.prototype.includes`: substring containment. -/
def jsIncludes (s sub : String) : Bool :=
  listInfixOf sub.toList s.toList

/-- The injected marker token (`PLACEHOLDER` in `visitor.ts`). -/
def PLACEHOLDER : String := "TRIGGER_CHARACTER"

/-- An editor position: 0-indexed line and character. -/
structure Position where
  line : Nat
  character : Nat
  deriving DecidableEq, Repr

/-- `VisitorSelection`: a start/end pair of editor positions. -/
structure VisitorSelection where
  start : Position
  stop : Position
  deriving DecidableEq, Repr

/-- A Babel source location (`loc`): 1-indexed lines, 0-indexed columns. -/
structure Loc where
  startLine : Nat
  startColumn : Nat
  endLine : Nat
  endColumn : Nat
  deriving DecidableEq, Repr

/-- The fragment of the Babel AST inspected by the visitor's checks.
`call` carries its `loc` (the only location the completion checks read,
in `_checkHasDatabaseName`); `tmplLit` carries the list of raw quasi
strings; `member`'s third field and `call`'s callee-member `computed`
flags mirror Babel's `computed` property. -/
inductive Node where
  | ident (name : String) : Node
  | strLit (value : String) : Node
  | tmplLit (quasis : List String) : Node
  | member (object : Node) (property : Node) (computed : Bool) : Node
  | call (callee : Node) (args : List Node) (loc : Option Loc) : Node
  | objProp (key : Node) (value : Node) : Node
  | spread : Node
  | objMethod : Node
  | objExpr (props : List Node) : Node
  | arrExpr (elems : List (Option Node)) : Node
  | exprStmt (expr : Node) : Node
  deriving Repr

/-- A parsed program: the statement list of Babel's `Program` body. -/
abbrev Program := List Node

/-- The children of a node, in Babel's visitation order (`null` array
holes are skipped by `@babel/traverse`). -/
def children : Node → List Node
  | .ident _ => []
  | .strLit _ => []
  | .tmplLit _ => []
  | .member o p _ => [o, p]
  | .call c args _ => c :: args
  | .objProp k v => [k, v]
  | .spread => []
  | .objMethod => []
  | .objExpr props => props
  | .arrExpr elems => elems.filterMap id
  | .exprStmt e => [e]

mutual

/-- All nodes of a subtree in depth-first enter order (the order in
which `@babel/traverse`'s `enter` callback fires), root included. -/
def preorder : Node → List Node
  | .ident name => [.ident name]
  | .strLit v => [.strLit v]
  | .tmplLit qs => [.tmplLit qs]
  | .member o p c => .member o p c :: (preorder o ++ preorder p)
  | .call c args l => .call c args l :: (preorder c ++ preorderList args)
  | .objProp k v => .objProp k v :: (preorder k ++ preorder v)
  | .spread => [.spread]
  | .objMethod => [.objMethod]
  | .objExpr props => .objExpr props :: preorderList props
  | .arrExpr elems => .arrExpr elems :: preorderOptList elems
  | .exprStmt e => .exprStmt e :: preorder e

/-- `preorder` mapped over a node list, concatenated. -/
def preorderList : List Node → List Node
  | [] => []
  | n :: ns => preorder n ++ preorderList ns

/-- `preorder` over an array-element list with `null` holes skipped. -/
def preorderOptList : List (Option Node) → List Node
  | [] => []
  | none :: ns => preorderOptList ns
  | some n :: ns => preorder n ++ preorderOptList ns

end

/-- `CompletionState`: everything discovered about the MongoDB context
at the cursor.  All fields nullable/false by default. -/
structure CompletionState where
  databaseName : Option String
  collectionName : Option String
  streamProcessorName : Option String
  isObjectKey : Bool
  isIdentifierObjectValue : Bool
  isTextObjectValue : Bool
  isStage : Bool
  stageOperator : Option String
  isCollectionSymbol : Bool
  isStreamProcessorSymbol : Bool
  isUseCallExpression : Bool
  isGlobalSymbol : Bool
  isDbSymbol : Bool
  isSpSymbol : Bool
  isCollectionName : Bool
  isStreamProcessorName : Bool
  isAggregationCursor : Bool
  isFindCursor : Bool
  deriving DecidableEq, Repr

/-- `Visitor._getDefaultsForCompletion`: the all-defaults state. -/
def getDefaultsForCompletion : CompletionState :=
  { databaseName := none
    collectionName := none
    streamProcessorName := none
    isObjectKey := false
    isIdentifierObjectValue := false
    isTextObjectValue := false
    isStage := false
    stageOperator := none
    isCollectionSymbol := false
    isStreamProcessorSymbol := false
    isUseCallExpression := false
    isGlobalSymbol := false
    isDbSymbol := false
    isSpSymbol := false
    isCollectionName := false
    isStreamProcessorName := false
    isAggregationCursor := false
    isFindCursor := false }

/-!
The structural checks.  Every check in `visitor.ts` is a guarded
single-field (twice: two-field) assignment on the mutable `_state`; each
is modelled as a shape predicate on the node plus a functional record
update.  The embedding is specialised to the full `CompletionState`
(the shape `parseASTForCompletion` always installs before traversing),
on which every `'field' in this._state` test of the source is true.
-/

/-- `_checkIsUseCallAsSimpleString`'s condition: `use(...)` with one
string-literal argument containing the marker. -/
def useCallSimpleShape : Node → Bool
  | .call (.ident c) [.strLit v] _ => c == "use" && jsIncludes v PLACEHOLDER
  | _ => false

/-- `_checkIsUseCallAsTemplate`'s condition: `use(...)` with one
single-quasi template argument whose raw text is truthy (non-empty)
and contains the marker. -/
def useCallTemplateShape : Node → Bool
  | .call (.ident c) [.tmplLit [q]] _ =>
      c == "use" && (q != "") && jsIncludes q PLACEHOLDER
  | _ => false

def checkIsUseCallAsSimpleString (n : Node) (s : CompletionState) : CompletionState :=
  if useCallSimpleShape n then { s with isUseCallExpression := true } else s

def checkIsUseCallAsTemplate (n : Node) (s : CompletionState) : CompletionState :=
  if useCallTemplateShape n then { s with isUseCallExpression := true } else s

/-- `_checkIsUseCall`. -/
def checkIsUseCall (n : Node) (s : CompletionState) : CompletionState :=
  checkIsUseCallAsTemplate n (checkIsUseCallAsSimpleString n s)

/-- The disjunction shared by `_checkGetCollectionAsSimpleString` /
`…AsTemplate` (and the stream-processor mirrors): a single argument that
is a marker-containing string literal or single-quasi template. -/
def argContainsPlaceholder : Node → Bool
  | .strLit v => jsIncludes v PLACEHOLDER
  | .tmplLit [q] => jsIncludes q PLACEHOLDER
  | _ => false

/-- `_checkIsCollectionNameAsCallExpression`'s condition:
`db.getCollection(arg)` with exactly one marker-containing argument. -/
def getCollectionNameCallShape : Node → Bool
  | .call (.member (.ident o) (.ident m) _) [a] _ =>
      o == "db" && m == "getCollection" && argContainsPlaceholder a
  | _ => false

def checkIsCollectionNameAsCallExpression (n : Node) (s : CompletionState) :
    CompletionState :=
  if getCollectionNameCallShape n then { s with isCollectionName := true } else s

/-- `_checkIsStreamProcessorNameAsCallExpression`'s condition:
`sp.getProcessor(arg)` with exactly one marker-containing argument. -/
def getProcessorNameCallShape : Node → Bool
  | .call (.member (.ident o) (.ident m) _) [a] _ =>
      o == "sp" && m == "getProcessor" && argContainsPlaceholder a
  | _ => false

def checkIsStreamProcessorNameAsCallExpression (n : Node) (s : CompletionState) :
    CompletionState :=
  if getProcessorNameCallShape n then { s with isStreamProcessorName := true } else s

/-- `_checkHasDatabaseName`'s guard and captured value: a `use` call
with one string-literal argument, with a `loc`, whose end lies before
the selection start (parser lines are 1-indexed, editor lines
0-indexed, hence `loc.end.line - 1`).  Returns the database name when
the guard holds. -/
def useCallDatabaseArg (sel : VisitorSelection) : Node → Option String
  | .call (.ident c) [.strLit v] loc =>
      match loc with
      | some l =>
          if c == "use" &&
              (decide (sel.start.line > l.endLine - 1) ||
                (sel.start.line == l.endLine - 1 &&
                  decide (sel.start.character ≥ l.endColumn))) then
            some v
          else none
      | none => none
  | _ => none

def checkHasDatabaseName (sel : VisitorSelection) (n : Node)
    (s : CompletionState) : CompletionState :=
  match useCallDatabaseArg sel n with
  | some v => { s with databaseName := some v }
  | none => s

/-- `_checkIsGlobalSymbol`'s condition on an expression statement:
a bare identifier containing `TRIGGER_CHARACTER` (spelled literally in
the source; same string as `PLACEHOLDER`). -/
def globalSymbolShape : Node → Bool
  | .exprStmt (.ident name) => jsIncludes name "TRIGGER_CHARACTER"
  | _ => false

def checkIsGlobalSymbol (n : Node) (s : CompletionState) : CompletionState :=
  if globalSymbolShape n then { s with isGlobalSymbol := true } else s

/-- `_checkIsDbSymbol`'s condition: the statement's expression is a
member expression whose object is the bare identifier `db`. -/
def dbSymbolStmtShape : Node → Bool
  | .exprStmt (.member (.ident o) _ _) => o == "db"
  | _ => false

def checkIsDbSymbol (n : Node) (s : CompletionState) : CompletionState :=
  if dbSymbolStmtShape n then { s with isDbSymbol := true } else s

/-- `_checkIsSpSymbol`'s condition: the statement's expression is a
member expression whose object is the bare identifier `sp`. -/
def spSymbolStmtShape : Node → Bool
  | .exprStmt (.member (.ident o) _ _) => o == "sp"
  | _ => false

def checkIsSpSymbol (n : Node) (s : CompletionState) : CompletionState :=
  if spSymbolStmtShape n then { s with isSpSymbol := true } else s

/-- An object property whose key is a marker-containing identifier
(the match run by `_checkIsObjectKey` and `_checkIsStage`, and by the
sub-traversal of `_checkIsStageOperator`). -/
def markerKeyProp : Node → Bool
  | .objProp (.ident k) _ => jsIncludes k PLACEHOLDER
  | _ => false

/-- `_checkIsObjectKey`'s condition on an object expression. -/
def objectKeyShape : Node → Bool
  | .objExpr props => props.any markerKeyProp
  | _ => false

def checkIsObjectKey (n : Node) (s : CompletionState) : CompletionState :=
  if objectKeyShape n then { s with isObjectKey := true } else s

/-- `_checkIsIdentifierObjectValue`'s condition: some property value is
a marker-containing identifier. -/
def identifierObjectValueShape : Node → Bool
  | .objExpr props =>
      props.any fun p =>
        match p with
        | .objProp _ (.ident v) => jsIncludes v PLACEHOLDER
        | _ => false
  | _ => false

def checkIsIdentifierObjectValue (n : Node) (s : CompletionState) : CompletionState :=
  if identifierObjectValueShape n then { s with isIdentifierObjectValue := true } else s

/-- `_checkIsTextObjectValue`'s condition: some property value is a
marker-containing string literal or single-quasi template literal. -/
def textObjectValueShape : Node → Bool
  | .objExpr props =>
      props.any fun p =>
        match p with
        | .objProp _ (.strLit v) => jsIncludes v PLACEHOLDER
        | .objProp _ (.tmplLit [q]) => jsIncludes q PLACEHOLDER
        | _ => false
  | _ => false

def checkIsTextObjectValue (n : Node) (s : CompletionState) : CompletionState :=
  if textObjectValueShape n then { s with isTextObjectValue := true } else s

/-- `_checkIsStage`'s condition: some (non-hole) array element is an
object expression one of whose property keys contains the marker. -/
def stageShape : Node → Bool
  | .arrExpr elems =>
      elems.any fun e =>
        match e with
        | some (.objExpr props) => props.any markerKeyProp
        | _ => false
  | _ => false

def checkIsStage (n : Node) (s : CompletionState) : CompletionState :=
  if stageShape n then { s with isStage := true } else s

/-- The operator names recorded by `_checkIsStageOperator`, in the
order the source's nested `forEach`/`find` loops produce them: for each
object-expression element, for each property `{ key: {…} }` with an
identifier key and object-expression value, the key's name whenever the
sub-traversal of the property's subtree (`path.scope.traverse(item,…)`,
which fires on strict descendants) finds a marker-keyed object
property. -/
def stageOperatorCandidates (elems : List (Option Node)) : List String :=
  elems.foldl
    (fun acc e =>
      match e with
      | some (.objExpr props) =>
          acc ++
            props.filterMap fun p =>
              match p with
              | .objProp (.ident name) (.objExpr inner) =>
                  if (preorderList (children (Node.objProp (.ident name)
                        (.objExpr inner)))).any markerKeyProp then
                    some name
                  else none
              | _ => none
      | _ => acc)
    []

/-- `_checkIsStageOperator`: each hit overwrites `stageOperator`. -/
def checkIsStageOperator (n : Node) (s : CompletionState) : CompletionState :=
  match n with
  | .arrExpr elems =>
      (stageOperatorCandidates elems).foldl
        (fun st name => { st with stageOperator := some name }) s
  | _ => s

/-- The property disjunction of `_checkIsCollectionNameAsMemberExpression`
(and its `sp` mirror): a marker-containing identifier or string
literal. -/
def propertyContainsPlaceholder : Node → Bool
  | .ident name => jsIncludes name PLACEHOLDER
  | .strLit v => jsIncludes v PLACEHOLDER
  | _ => false

/-- `_checkIsCollectionNameAsMemberExpression`'s condition: object is
the bare identifier `db` and the property contains the marker. -/
def collectionNameMemberShape : Node → Bool
  | .member (.ident o) p _ => o == "db" && propertyContainsPlaceholder p
  | _ => false

def checkIsCollectionNameAsMemberExpression (n : Node) (s : CompletionState) :
    CompletionState :=
  if collectionNameMemberShape n then { s with isCollectionName := true } else s

/-- `_checkHasAggregationCall`'s condition: a member expression chained
off a call whose callee is a non-computed member named `aggregate`,
with a marker-containing property name. -/
def aggregationCallShape : Node → Bool
  | .member (.call (.member _ (.ident m) comp) _ _) (.ident pname) _ =>
      jsIncludes pname PLACEHOLDER && !comp && m == "aggregate"
  | _ => false

def checkHasAggregationCall (n : Node) (s : CompletionState) : CompletionState :=
  if aggregationCallShape n then { s with isAggregationCursor := true } else s

/-- `_checkHasFindCall`'s condition: as above with callee name `find`. -/
def findCallShape : Node → Bool
  | .member (.call (.member _ (.ident m) comp) _ _) (.ident pname) _ =>
      jsIncludes pname PLACEHOLDER && !comp && m == "find"
  | _ => false

def checkHasFindCall (n : Node) (s : CompletionState) : CompletionState :=
  if findCallShape n then { s with isFindCursor := true } else s

/-- `_checkHasCollectionNameMemberExpression`'s captured value: the
member's object is `db.<prop>`; an identifier property yields its name,
a string-literal property its value. -/
def collectionNameMemberArg : Node → Option String
  | .member (.member (.ident o) p _) _ _ =>
      if o == "db" then
        match p with
        | .ident name => some name
        | .strLit v => some v
        | _ => none
      else none
  | _ => none

def checkHasCollectionNameMemberExpression (n : Node) (s : CompletionState) :
    CompletionState :=
  match collectionNameMemberArg n with
  | some v => { s with collectionName := some v }
  | none => s

/-- `_checkHasCollectionNameCallExpression`'s captured value: the
member's object is `db.getCollection("name")` with exactly one
string-literal argument. -/
def collectionNameCallArg : Node → Option String
  | .member (.call (.member (.ident o) (.ident m) _) args _) _ _ =>
      if o == "db" && m == "getCollection" then
        match args with
        | [.strLit v] => some v
        | _ => none
      else none
  | _ => none

def checkHasCollectionNameCallExpression (n : Node) (s : CompletionState) :
    CompletionState :=
  match collectionNameCallArg n with
  | some v => { s with collectionName := some v }
  | none => s

/-- `_checkHasCollectionName`. -/
def checkHasCollectionName (n : Node) (s : CompletionState) : CompletionState :=
  checkHasCollectionNameCallExpression n (checkHasCollectionNameMemberExpression n s)

/-- `_checkIsCollectionMemberExpression`'s condition: object is
`db.<anything>` and the property is a marker-containing identifier. -/
def collectionSymbolMemberShape : Node → Bool
  | .member (.member (.ident o) _ _) (.ident pname) _ =>
      o == "db" && jsIncludes pname PLACEHOLDER
  | _ => false

def checkIsCollectionMemberExpression (n : Node) (s : CompletionState) :
    CompletionState :=
  if collectionSymbolMemberShape n then { s with isCollectionSymbol := true } else s

/-- `_checkIsCollectionCallExpression`'s condition: object is a
`db.getCollection(…)` call and the property is a marker-containing
identifier. -/
def collectionSymbolCallShape : Node → Bool
  | .member (.call (.member (.ident o) (.ident m) _) _ _) (.ident pname) _ =>
      o == "db" && m == "getCollection" && jsIncludes pname PLACEHOLDER
  | _ => false

def checkIsCollectionCallExpression (n : Node) (s : CompletionState) :
    CompletionState :=
  if collectionSymbolCallShape n then { s with isCollectionSymbol := true } else s

/-- `_checkIsCollectionSymbol`. -/
def checkIsCollectionSymbol (n : Node) (s : CompletionState) : CompletionState :=
  checkIsCollectionCallExpression n (checkIsCollectionMemberExpression n s)

/-- `_checkIsStreamProcessorNameAsMemberExpression`'s condition: object
is the bare identifier `sp` and the property contains the marker.  Note
that this check sets TWO fields, `isSpSymbol` and
`isStreamProcessorName`. -/
def spNameMemberShape : Node → Bool
  | .member (.ident o) p _ => o == "sp" && propertyContainsPlaceholder p
  | _ => false

def checkIsStreamProcessorNameAsMemberExpression (n : Node) (s : CompletionState) :
    CompletionState :=
  if spNameMemberShape n then
    { s with isSpSymbol := true, isStreamProcessorName := true }
  else s

/-- `_checkIsStreamProcessorMemberExpression`'s condition: object is
`sp.<anything>` and the property is a marker-containing identifier. -/
def spSymbolMemberShape : Node → Bool
  | .member (.member (.ident o) _ _) (.ident pname) _ =>
      o == "sp" && jsIncludes pname PLACEHOLDER
  | _ => false

def checkIsStreamProcessorMemberExpression (n : Node) (s : CompletionState) :
    CompletionState :=
  if spSymbolMemberShape n then { s with isStreamProcessorSymbol := true } else s

/-- `_checkIsStreamProcessorCallExpression`'s condition: object is an
`sp.getProcessor(…)` call and the property is a marker-containing
identifier. -/
def spSymbolCallShape : Node → Bool
  | .member (.call (.member (.ident o) (.ident m) _) _ _) (.ident pname) _ =>
      o == "sp" && m == "getProcessor" && jsIncludes pname PLACEHOLDER
  | _ => false

def checkIsStreamProcessorCallExpression (n : Node) (s : CompletionState) :
    CompletionState :=
  if spSymbolCallShape n then { s with isStreamProcessorSymbol := true } else s

/-- `_checkIsStreamProcessorSymbol`. -/
def checkIsStreamProcessorSymbol (n : Node) (s : CompletionState) : CompletionState :=
  checkIsStreamProcessorCallExpression n (checkIsStreamProcessorMemberExpression n s)

/-- `_checkHasStreamProcessorNameMemberExpression`'s captured value. -/
def streamProcessorNameMemberArg : Node → Option String
  | .member (.member (.ident o) p _) _ _ =>
      if o == "sp" then
        match p with
        | .ident name => some name
        | .strLit v => some v
        | _ => none
      else none
  | _ => none

def checkHasStreamProcessorNameMemberExpression (n : Node) (s : CompletionState) :
    CompletionState :=
  match streamProcessorNameMemberArg n with
  | some v => { s with streamProcessorName := some v }
  | none => s

/-- `_checkHasStreamProcessorNameCallExpression`'s captured value. -/
def streamProcessorNameCallArg : Node → Option String
  | .member (.call (.member (.ident o) (.ident m) _) args _) _ _ =>
      if o == "sp" && m == "getProcessor" then
        match args with
        | [.strLit v] => some v
        | _ => none
      else none
  | _ => none

def checkHasStreamProcessorNameCallExpression (n : Node) (s : CompletionState) :
    CompletionState :=
  match streamProcessorNameCallArg n with
  | some v => { s with streamProcessorName := some v }
  | none => s

/-- `_checkHasStreamProcessorName`. -/
def checkHasStreamProcessorName (n : Node) (s : CompletionState) : CompletionState :=
  checkHasStreamProcessorNameCallExpression n
    (checkHasStreamProcessorNameMemberExpression n s)

/-- `_visitCallExpression`: runs the call-expression battery when the
node is a call expression. -/
def visitCallExpression (sel : VisitorSelection) (n : Node) (s : CompletionState) :
    CompletionState :=
  match n with
  | .call _ _ _ =>
      checkHasDatabaseName sel n
        (checkIsStreamProcessorNameAsCallExpression n
          (checkIsCollectionNameAsCallExpression n
            (checkIsUseCall n s)))
  | _ => s

/-- `_visitMemberExpression`: runs the member-expression battery when
the node is a member expression, in source order. -/
def visitMemberExpression (n : Node) (s : CompletionState) : CompletionState :=
  match n with
  | .member _ _ _ =>
      checkHasStreamProcessorName n
        (checkIsStreamProcessorNameAsMemberExpression n
          (checkIsStreamProcessorSymbol n
            (checkHasCollectionName n
              (checkIsCollectionNameAsMemberExpression n
                (checkIsCollectionSymbol n
                  (checkHasFindCall n
                    (checkHasAggregationCall n s)))))))
  | _ => s

/-- `_visitExpressionStatement`. -/
def visitExpressionStatement (n : Node) (s : CompletionState) : CompletionState :=
  match n with
  | .exprStmt _ =>
      checkIsSpSymbol n (checkIsDbSymbol n (checkIsGlobalSymbol n s))
  | _ => s

/-- `_visitObjectExpression`. -/
def visitObjectExpression (n : Node) (s : CompletionState) : CompletionState :=
  match n with
  | .objExpr _ =>
      checkIsTextObjectValue n (checkIsIdentifierObjectValue n (checkIsObjectKey n s))
  | _ => s

/-- `_visitArrayExpression`. -/
def visitArrayExpression (n : Node) (s : CompletionState) : CompletionState :=
  match n with
  | .arrExpr _ => checkIsStageOperator n (checkIsStage n s)
  | _ => s

/-- The `enter` callback passed to `traverse`: the five visit methods
in source order. -/
def enter (sel : VisitorSelection) (n : Node) (s : CompletionState) :
    CompletionState :=
  visitArrayExpression n
    (visitObjectExpression n
      (visitExpressionStatement n
        (visitMemberExpression n
          (visitCallExpression sel n s))))

/-- Fold the `enter` callback over a node list. -/
def runEnter (sel : VisitorSelection) (s : CompletionState) (ns : List Node) :
    CompletionState :=
  ns.foldl (fun st n => enter sel n st) s

/-- One full traversal of a parsed program in depth-first enter order. -/
def runTraversal (sel : VisitorSelection) (prog : Program) (s : CompletionState) :
    CompletionState :=
  runEnter sel s (preorderList prog)

/-- The mutable fields of the `Visitor` class.  `parseASTForCompletion`
always installs a full `CompletionState` before traversing, so `_state`
is modelled at that shape (see the note on the checks above). -/
structure Visitor where
  state : CompletionState
  selection : VisitorSelection

/-- `new Visitor()`. -/
def Visitor.mk' : Visitor :=
  { state := getDefaultsForCompletion
    selection :=
      { start := { line := 0, character := 0 }
        stop := { line := 0, character := 0 } } }

/-- The external parser: `parser.parse` from `@babel/parser`, returning
`none` when it throws (the `catch` in `parseAST` swallows the error and
leaves `ast` undefined, on which `traverse` is a no-op). -/
abbrev ParseFn := String → Option Program

/-- The core of `_handleTriggerCharacter`, on the already-split line
list: the cursor's line is replaced by `prefix + PLACEHOLDER + postfix`
(at character 0 the prefix is empty and the postfix the full line);
every other entry of the array is untouched. -/
def handleTriggerCharacterLines (textLines : List String)
    (position : Position) : List String :=
  let cur := textLines.getD position.line ""
  let pre := if position.character == 0 then "" else cur.take position.character
  let post := if position.character == 0 then cur else cur.drop position.character
  textLines.set position.line (pre ++ PLACEHOLDER ++ post)

/-- `_handleTriggerCharacter`: split on newlines, splice the marker
into the cursor's line, re-join. -/
def handleTriggerCharacter (textFromEditor : String) (position : Position) :
    String :=
  String.intercalate "\n"
    (handleTriggerCharacterLines (textFromEditor.splitOn "\n") position)

/-- `Visitor.parseAST`: store the selection, parse (silently swallowing
failure), traverse. -/
def Visitor.parseAST (parse : ParseFn) (v : Visitor) (textFromEditor : String)
    (selection : VisitorSelection) : Visitor :=
  let v := { v with selection := selection }
  match parse textFromEditor with
  | none => v
  | some prog => { v with state := runTraversal selection prog v.state }

/-- `Visitor.parseASTForCompletion`: reset the state to all defaults,
inject the marker, parse and traverse, return the state (the updated
visitor is returned too, to track the object's mutation). -/
def Visitor.parseASTForCompletion (parse : ParseFn) (v : Visitor)
    (textFromEditor : String) (position : Position) :
    Visitor × CompletionState :=
  let selection : VisitorSelection :=
    { start := position, stop := { line := 0, character := 0 } }
  let v := { v with state := getDefaultsForCompletion }
  let injected := handleTriggerCharacter textFromEditor position
  let v := Visitor.parseAST parse v injected selection
  (v, v.state)

/-- `_isWithinSelection`, on the node's `loc`.  Each `line`/`column` is
first tested for JavaScript truthiness (`x &&` — false at `0`), then
compared against the selection with the 1-indexed-to-0-indexed line
adjustment. -/
def isWithinSelection (loc : Option Loc) (sel : VisitorSelection) : Bool :=
  match loc with
  | some l =>
      (l.startLine != 0) && (l.startLine - 1 == sel.start.line) &&
      (l.startColumn != 0) && (decide (l.startColumn ≥ sel.start.character)) &&
      (l.endLine != 0) && (l.endLine - 1 == sel.stop.line) &&
      (l.endColumn != 0) && (decide (l.endColumn ≤ sel.stop.character))
  | none => false

/-!  Concrete syntax trees.  Each is the tree Babel produces for the
marker-injected text named in its doc comment; the parser itself is
external (§6 of the spec), so these trees are modelled from the spec's
description of the collaborator's output format. -/

/-- Modelled from the spec: Babel's parse of `db.TRIGGER_CHARACTER`
(the injection of `db.` with the cursor at line 0, character 3 — a
member access off bare `db` whose property is the marker). -/
def dbDotProg : Program :=
  [.exprStmt (.member (.ident "db") (.ident "TRIGGER_CHARACTER") false)]

/-- Modelled from the spec: Babel's parse of
`db.coll.aggregate([{ $match: { TRIGGER_CHARACTER } }])` (the injection
of `db.coll.aggregate([{ $match: { <CURSOR> } }])`); the marker becomes
a shorthand object property (key and value both the marker
identifier). -/
def aggProg : Program :=
  [.exprStmt (.call
    (.member (.member (.ident "db") (.ident "coll") false) (.ident "aggregate") false)
    [.arrExpr [some (.objExpr [.objProp (.ident "$match")
      (.objExpr [.objProp (.ident "TRIGGER_CHARACTER") (.ident "TRIGGER_CHARACTER")])])]]
    (some ⟨1, 0, 1, 46⟩))]

/-- Modelled from the spec: Babel's parse of
`db.coll.find({}).TRIGGER_CHARACTER` (the injection of
`db.coll.find({}).<CURSOR>`). -/
def findProg : Program :=
  [.exprStmt (.member
    (.call (.member (.member (.ident "db") (.ident "coll") false) (.ident "find") false)
      [.objExpr []] (some ⟨1, 0, 1, 17⟩))
    (.ident "TRIGGER_CHARACTER") false)]

/-- The member-expression node of `findProg` that carries the marker. -/
def findCursorNode : Node :=
  .member
    (.call (.member (.member (.ident "db") (.ident "coll") false) (.ident "find") false)
      [.objExpr []] (some ⟨1, 0, 1, 17⟩))
    (.ident "TRIGGER_CHARACTER") false

/-- Modelled from the spec: Babel's parse of a three-line script
`use("db")` / `use("db2")` / `TRIGGER_CHARACTER` (the injection of an
empty third line with the cursor on it, after two `use` calls). -/
def useProg : Program :=
  [.exprStmt (.call (.ident "use") [.strLit "db"] (some ⟨1, 0, 1, 9⟩)),
   .exprStmt (.call (.ident "use") [.strLit "db2"] (some ⟨2, 0, 2, 10⟩)),
   .exprStmt (.ident "TRIGGER_CHARACTER")]

/-!  Monotonicity order on completion states: every boolean flag only
ever goes from `false` to `true`, and a name field, once `some`, stays
`some` (possibly with a different string). -/

/-- `s` precedes `t` in the monotone evolution order of one traversal. -/
def StateLe (s t : CompletionState) : Prop :=
  (s.databaseName.isSome = true → t.databaseName.isSome = true) ∧
  (s.collectionName.isSome = true → t.collectionName.isSome = true) ∧
  (s.streamProcessorName.isSome = true → t.streamProcessorName.isSome = true) ∧
  (s.isObjectKey = true → t.isObjectKey = true) ∧
  (s.isIdentifierObjectValue = true → t.isIdentifierObjectValue = true) ∧
  (s.isTextObjectValue = true → t.isTextObjectValue = true) ∧
  (s.isStage = true → t.isStage = true) ∧
  (s.isCollectionSymbol = true → t.isCollectionSymbol = true) ∧
  (s.isStreamProcessorSymbol = true → t.isStreamProcessorSymbol = true) ∧
  (s.isUseCallExpression = true → t.isUseCallExpression = true) ∧
  (s.isGlobalSymbol = true → t.isGlobalSymbol = true) ∧
  (s.isDbSymbol = true → t.isDbSymbol = true) ∧
  (s.isSpSymbol = true → t.isSpSymbol = true) ∧
  (s.isCollectionName = true → t.isCollectionName = true) ∧
  (s.isStreamProcessorName = true → t.isStreamProcessorName = true) ∧
  (s.isAggregationCursor = true → t.isAggregationCursor = true) ∧
  (s.isFindCursor = true → t.isFindCursor = true)

theorem StateLe.rfl {s : CompletionState} : StateLe s s := by
  unfold StateLe; repeat' constructor
  all_goals exact id

theorem StateLe.trans {a b c : CompletionState} (h₁ : StateLe a b)
    (h₂ : StateLe b c) : StateLe a c := by
  unfold StateLe at *
  obtain ⟨p1, p2, p3, p4, p5, p6, p7, p8, p9, p10, p11, p12, p13, p14, p15, p16, p17⟩ := h₁
  obtain ⟨q1, q2, q3, q4, q5, q6, q7, q8, q9, q10, q11, q12, q13, q14, q15, q16, q17⟩ := h₂
  exact ⟨fun h => q1 (p1 h), fun h => q2 (p2 h), fun h => q3 (p3 h),
    fun h => q4 (p4 h), fun h => q5 (p5 h), fun h => q6 (p6 h),
    fun h => q7 (p7 h), fun h => q8 (p8 h), fun h => q9 (p9 h),
    fun h => q10 (p10 h), fun h => q11 (p11 h), fun h => q12 (p12 h),
    fun h => q13 (p13 h), fun h => q14 (p14 h), fun h => q15 (p15 h),
    fun h => q16 (p16 h), fun h => q17 (p17 h)⟩

theorem stateLe_checkIsUseCallAsSimpleString (n : Node) (s : CompletionState) :
    StateLe s (checkIsUseCallAsSimpleString n s) := by
  unfold checkIsUseCallAsSimpleString; split <;> simp [StateLe]

theorem stateLe_checkIsUseCallAsTemplate (n : Node) (s : CompletionState) :
    StateLe s (checkIsUseCallAsTemplate n s) := by
  unfold checkIsUseCallAsTemplate; split <;> simp [StateLe]

theorem stateLe_checkIsUseCall (n : Node) (s : CompletionState) :
    StateLe s (checkIsUseCall n s) :=
  (stateLe_checkIsUseCallAsSimpleString n s).trans
    (stateLe_checkIsUseCallAsTemplate n _)

theorem stateLe_checkIsCollectionNameAsCallExpression (n : Node) (s : CompletionState) :
    StateLe s (checkIsCollectionNameAsCallExpression n s) := by
  unfold checkIsCollectionNameAsCallExpression; split <;> simp [StateLe]

theorem stateLe_checkIsStreamProcessorNameAsCallExpression (n : Node)
    (s : CompletionState) :
    StateLe s (checkIsStreamProcessorNameAsCallExpression n s) := by
  unfold checkIsStreamProcessorNameAsCallExpression; split <;> simp [StateLe]

theorem stateLe_checkHasDatabaseName (sel : VisitorSelection) (n : Node)
    (s : CompletionState) : StateLe s (checkHasDatabaseName sel n s) := by
  unfold checkHasDatabaseName; split <;> simp [StateLe]

theorem stateLe_checkIsGlobalSymbol (n : Node) (s : CompletionState) :
    StateLe s (checkIsGlobalSymbol n s) := by
  unfold checkIsGlobalSymbol; split <;> simp [StateLe]

theorem stateLe_checkIsDbSymbol (n : Node) (s : CompletionState) :
    StateLe s (checkIsDbSymbol n s) := by
  unfold checkIsDbSymbol; split <;> simp [StateLe]

theorem stateLe_checkIsSpSymbol (n : Node) (s : CompletionState) :
    StateLe s (checkIsSpSymbol n s) := by
  unfold checkIsSpSymbol; split <;> simp [StateLe]

theorem stateLe_checkIsObjectKey (n : Node) (s : CompletionState) :
    StateLe s (checkIsObjectKey n s) := by
  unfold checkIsObjectKey; split <;> simp [StateLe]

theorem stateLe_checkIsIdentifierObjectValue (n : Node) (s : CompletionState) :
    StateLe s (checkIsIdentifierObjectValue n s) := by
  unfold checkIsIdentifierObjectValue; split <;> simp [StateLe]

theorem stateLe_checkIsTextObjectValue (n : Node) (s : CompletionState) :
    StateLe s (checkIsTextObjectValue n s) := by
  unfold checkIsTextObjectValue; split <;> simp [StateLe]

theorem stateLe_checkIsStage (n : Node) (s : CompletionState) :
    StateLe s (checkIsStage n s) := by
  unfold checkIsStage; split <;> simp [StateLe]

theorem stateLe_checkIsStageOperator (n : Node) (s : CompletionState) :
    StateLe s (checkIsStageOperator n s) := by
  unfold checkIsStageOperator
  split
  case _ elems =>
    generalize stageOperatorCandidates elems = cands
    induction cands generalizing s with
    | nil => exact StateLe.rfl
    | cons a l ih => exact StateLe.trans (by simp [StateLe]) (ih _)
  case _ => exact StateLe.rfl

theorem stateLe_checkIsCollectionNameAsMemberExpression (n : Node)
    (s : CompletionState) :
    StateLe s (checkIsCollectionNameAsMemberExpression n s) := by
  unfold checkIsCollectionNameAsMemberExpression; split <;> simp [StateLe]

theorem stateLe_checkHasAggregationCall (n : Node) (s : CompletionState) :
    StateLe s (checkHasAggregationCall n s) := by
  unfold checkHasAggregationCall; split <;> simp [StateLe]

theorem stateLe_checkHasFindCall (n : Node) (s : CompletionState) :
    StateLe s (checkHasFindCall n s) := by
  unfold checkHasFindCall; split <;> simp [StateLe]

theorem stateLe_checkHasCollectionNameMemberExpression (n : Node)
    (s : CompletionState) :
    StateLe s (checkHasCollectionNameMemberExpression n s) := by
  unfold checkHasCollectionNameMemberExpression; split <;> simp [StateLe]

theorem stateLe_checkHasCollectionNameCallExpression (n : Node)
    (s : CompletionState) :
    StateLe s (checkHasCollectionNameCallExpression n s) := by
  unfold checkHasCollectionNameCallExpression; split <;> simp [StateLe]

theorem stateLe_checkHasCollectionName (n : Node) (s : CompletionState) :
    StateLe s (checkHasCollectionName n s) :=
  (stateLe_checkHasCollectionNameMemberExpression n s).trans
    (stateLe_checkHasCollectionNameCallExpression n _)

theorem stateLe_checkIsCollectionMemberExpression (n : Node) (s : CompletionState) :
    StateLe s (checkIsCollectionMemberExpression n s) := by
  unfold checkIsCollectionMemberExpression; split <;> simp [StateLe]

theorem stateLe_checkIsCollectionCallExpression (n : Node) (s : CompletionState) :
    StateLe s (checkIsCollectionCallExpression n s) := by
  unfold checkIsCollectionCallExpression; split <;> simp [StateLe]

theorem stateLe_checkIsCollectionSymbol (n : Node) (s : CompletionState) :
    StateLe s (checkIsCollectionSymbol n s) :=
  (stateLe_checkIsCollectionMemberExpression n s).trans
    (stateLe_checkIsCollectionCallExpression n _)

theorem stateLe_checkIsStreamProcessorNameAsMemberExpression (n : Node)
    (s : CompletionState) :
    StateLe s (checkIsStreamProcessorNameAsMemberExpression n s) := by
  unfold checkIsStreamProcessorNameAsMemberExpression; split <;> simp [StateLe]

theorem stateLe_checkIsStreamProcessorMemberExpression (n : Node)
    (s : CompletionState) :
    StateLe s (checkIsStreamProcessorMemberExpression n s) := by
  unfold checkIsStreamProcessorMemberExpression; split <;> simp [StateLe]

theorem stateLe_checkIsStreamProcessorCallExpression (n : Node)
    (s : CompletionState) :
    StateLe s (checkIsStreamProcessorCallExpression n s) := by
  unfold checkIsStreamProcessorCallExpression; split <;> simp [StateLe]

theorem stateLe_checkIsStreamProcessorSymbol (n : Node) (s : CompletionState) :
    StateLe s (checkIsStreamProcessorSymbol n s) :=
  (stateLe_checkIsStreamProcessorMemberExpression n s).trans
    (stateLe_checkIsStreamProcessorCallExpression n _)

theorem stateLe_checkHasStreamProcessorNameMemberExpression (n : Node)
    (s : CompletionState) :
    StateLe s (checkHasStreamProcessorNameMemberExpression n s) := by
  unfold checkHasStreamProcessorNameMemberExpression; split <;> simp [StateLe]

theorem stateLe_checkHasStreamProcessorNameCallExpression (n : Node)
    (s : CompletionState) :
    StateLe s (checkHasStreamProcessorNameCallExpression n s) := by
  unfold checkHasStreamProcessorNameCallExpression; split <;> simp [StateLe]

theorem stateLe_checkHasStreamProcessorName (n : Node) (s : CompletionState) :
    StateLe s (checkHasStreamProcessorName n s) :=
  (stateLe_checkHasStreamProcessorNameMemberExpression n s).trans
    (stateLe_checkHasStreamProcessorNameCallExpression n _)

theorem stateLe_visitCallExpression (sel : VisitorSelection) (n : Node)
    (s : CompletionState) : StateLe s (visitCallExpression sel n s) := by
  unfold visitCallExpression
  split
  · exact (stateLe_checkIsUseCall _ s).trans
      ((stateLe_checkIsCollectionNameAsCallExpression _ _).trans
        ((stateLe_checkIsStreamProcessorNameAsCallExpression _ _).trans
          (stateLe_checkHasDatabaseName sel _ _)))
  · exact StateLe.rfl

theorem stateLe_visitMemberExpression (n : Node) (s : CompletionState) :
    StateLe s (visitMemberExpression n s) := by
  unfold visitMemberExpression
  split
  · exact (stateLe_checkHasAggregationCall _ s).trans
      ((stateLe_checkHasFindCall _ _).trans
        ((stateLe_checkIsCollectionSymbol _ _).trans
          ((stateLe_checkIsCollectionNameAsMemberExpression _ _).trans
            ((stateLe_checkHasCollectionName _ _).trans
              ((stateLe_checkIsStreamProcessorSymbol _ _).trans
                ((stateLe_checkIsStreamProcessorNameAsMemberExpression _ _).trans
                  (stateLe_checkHasStreamProcessorName _ _)))))))
  · exact StateLe.rfl

theorem stateLe_visitExpressionStatement (n : Node) (s : CompletionState) :
    StateLe s (visitExpressionStatement n s) := by
  unfold visitExpressionStatement
  split
  · exact (stateLe_checkIsGlobalSymbol _ s).trans
      ((stateLe_checkIsDbSymbol _ _).trans (stateLe_checkIsSpSymbol _ _))
  · exact StateLe.rfl

theorem stateLe_visitObjectExpression (n : Node) (s : CompletionState) :
    StateLe s (visitObjectExpression n s) := by
  unfold visitObjectExpression
  split
  · exact (stateLe_checkIsObjectKey _ s).trans
      ((stateLe_checkIsIdentifierObjectValue _ _).trans
        (stateLe_checkIsTextObjectValue _ _))
  · exact StateLe.rfl

theorem stateLe_visitArrayExpression (n : Node) (s : CompletionState) :
    StateLe s (visitArrayExpression n s) := by
  unfold visitArrayExpression
  split
  · exact (stateLe_checkIsStage _ s).trans (stateLe_checkIsStageOperator _ _)
  · exact StateLe.rfl

/-- One `enter` step is monotone. -/
theorem stateLe_enter (sel : VisitorSelection) (n : Node) (s : CompletionState) :
    StateLe s (enter sel n s) :=
  (stateLe_visitCallExpression sel n s).trans
    ((stateLe_visitMemberExpression n _).trans
      ((stateLe_visitExpressionStatement n _).trans
        ((stateLe_visitObjectExpression n _).trans
          (stateLe_visitArrayExpression n _))))

/-- Any run of `enter` steps is monotone. -/
theorem stateLe_runEnter (sel : VisitorSelection) (s : CompletionState)
    (ns : List Node) : StateLe s (runEnter sel s ns) := by
  induction ns generalizing s with
  | nil => exact StateLe.rfl
  | cons n l ih => exact (stateLe_enter sel n s).trans (ih _)

/-!  Per-field characterisations of the traversal step, used to settle
the `databaseName`, cursor-flag and stream-processor claims. -/

theorem ite_true_or (c b : Bool) : (if c = true then true else b) = (b || c) := by
  cases c <;> simp

/-- The overwrite fold of `_checkIsStageOperator` in closed form. -/
theorem stageOp_foldl_eq (l : List String) (s : CompletionState) :
    l.foldl (fun st name => { st with stageOperator := some name }) s =
      { s with stageOperator := (l.getLast?).or s.stageOperator } := by
  induction l generalizing s with
  | nil => rfl
  | cons a l ih =>
      show l.foldl _ { s with stageOperator := some a } = _
      rw [ih]
      cases h : l.getLast? <;> simp [List.getLast?_cons, h, Option.or]

theorem checkHasDatabaseName_databaseName (sel : VisitorSelection) (n : Node)
    (s : CompletionState) :
    (checkHasDatabaseName sel n s).databaseName =
      (useCallDatabaseArg sel n).or s.databaseName := by
  unfold checkHasDatabaseName; split <;> simp_all [Option.or]

theorem checkHasCollectionNameMemberExpression_databaseName (n : Node)
    (s : CompletionState) :
    (checkHasCollectionNameMemberExpression n s).databaseName = s.databaseName := by
  unfold checkHasCollectionNameMemberExpression; split <;> rfl

theorem checkHasCollectionNameCallExpression_databaseName (n : Node)
    (s : CompletionState) :
    (checkHasCollectionNameCallExpression n s).databaseName = s.databaseName := by
  unfold checkHasCollectionNameCallExpression; split <;> rfl

theorem checkHasStreamProcessorNameMemberExpression_databaseName (n : Node)
    (s : CompletionState) :
    (checkHasStreamProcessorNameMemberExpression n s).databaseName =
      s.databaseName := by
  unfold checkHasStreamProcessorNameMemberExpression; split <;> rfl

theorem checkHasStreamProcessorNameCallExpression_databaseName (n : Node)
    (s : CompletionState) :
    (checkHasStreamProcessorNameCallExpression n s).databaseName =
      s.databaseName := by
  unfold checkHasStreamProcessorNameCallExpression; split <;> rfl

theorem checkIsStageOperator_databaseName (n : Node) (s : CompletionState) :
    (checkIsStageOperator n s).databaseName = s.databaseName := by
  unfold checkIsStageOperator; split
  · rw [stageOp_foldl_eq]
  · rfl

theorem visitMemberExpression_databaseName (n : Node) (s : CompletionState) :
    (visitMemberExpression n s).databaseName = s.databaseName := by
  unfold visitMemberExpression
  split
  · simp only [checkHasStreamProcessorName,
      checkIsStreamProcessorNameAsMemberExpression, checkIsStreamProcessorSymbol,
      checkIsStreamProcessorCallExpression, checkIsStreamProcessorMemberExpression,
      checkHasCollectionName, checkIsCollectionNameAsMemberExpression,
      checkIsCollectionSymbol, checkIsCollectionCallExpression,
      checkIsCollectionMemberExpression, checkHasFindCall, checkHasAggregationCall,
      checkHasStreamProcessorNameCallExpression_databaseName,
      checkHasStreamProcessorNameMemberExpression_databaseName,
      checkHasCollectionNameCallExpression_databaseName,
      checkHasCollectionNameMemberExpression_databaseName,
      apply_ite CompletionState.databaseName, ite_self]
  · rfl

theorem visitCallExpression_databaseName (sel : VisitorSelection) (n : Node)
    (s : CompletionState) :
    (visitCallExpression sel n s).databaseName =
      (useCallDatabaseArg sel n).or s.databaseName := by
  unfold visitCallExpression
  split
  · rw [checkHasDatabaseName_databaseName]
    simp only [checkIsStreamProcessorNameAsCallExpression,
      checkIsCollectionNameAsCallExpression, checkIsUseCall,
      checkIsUseCallAsTemplate, checkIsUseCallAsSimpleString,
      apply_ite CompletionState.databaseName, ite_self]
  · cases n <;> simp_all [useCallDatabaseArg, Option.or]

theorem visitExpressionStatement_databaseName (n : Node) (s : CompletionState) :
    (visitExpressionStatement n s).databaseName = s.databaseName := by
  unfold visitExpressionStatement
  split
  · simp only [checkIsSpSymbol, checkIsDbSymbol, checkIsGlobalSymbol,
      apply_ite CompletionState.databaseName, ite_self]
  · rfl

theorem visitObjectExpression_databaseName (n : Node) (s : CompletionState) :
    (visitObjectExpression n s).databaseName = s.databaseName := by
  unfold visitObjectExpression
  split
  · simp only [checkIsTextObjectValue, checkIsIdentifierObjectValue,
      checkIsObjectKey, apply_ite CompletionState.databaseName, ite_self]
  · rfl

theorem visitArrayExpression_databaseName (n : Node) (s : CompletionState) :
    (visitArrayExpression n s).databaseName = s.databaseName := by
  unfold visitArrayExpression
  split
  · rw [checkIsStageOperator_databaseName]
    simp only [checkIsStage, apply_ite CompletionState.databaseName, ite_self]
  · rfl

/-- One `enter` step's effect on `databaseName`: exactly the qualifying
`use(...)`-call capture, everything else is a no-op. -/
theorem enter_databaseName (sel : VisitorSelection) (n : Node)
    (s : CompletionState) :
    (enter sel n s).databaseName = (useCallDatabaseArg sel n).or s.databaseName := by
  unfold enter
  rw [visitArrayExpression_databaseName, visitObjectExpression_databaseName,
    visitExpressionStatement_databaseName, visitMemberExpression_databaseName,
    visitCallExpression_databaseName]

/-- The traversal's effect on `databaseName` in closed form: the last
qualifying `use(...)` call in enter order wins. -/
theorem runEnter_databaseName (sel : VisitorSelection) (ns : List Node)
    (s : CompletionState) :
    (runEnter sel s ns).databaseName =
      ((ns.filterMap (useCallDatabaseArg sel)).getLast?).or s.databaseName := by
  induction ns generalizing s with
  | nil => rfl
  | cons n l ih =>
      show (runEnter sel (enter sel n s) l).databaseName = _
      rw [ih, enter_databaseName]
      cases h : useCallDatabaseArg sel n with
      | none => simp [List.filterMap_cons, h, Option.or]
      | some v =>
          simp only [List.filterMap_cons, h, List.getLast?_cons]
          cases (l.filterMap (useCallDatabaseArg sel)).getLast? <;>
            simp [Option.or]

theorem checkHasDatabaseName_isFindCursor (sel : VisitorSelection) (n : Node)
    (s : CompletionState) :
    (checkHasDatabaseName sel n s).isFindCursor = s.isFindCursor := by
  unfold checkHasDatabaseName; split <;> rfl

theorem checkHasCollectionNameMemberExpression_isFindCursor (n : Node)
    (s : CompletionState) :
    (checkHasCollectionNameMemberExpression n s).isFindCursor = s.isFindCursor := by
  unfold checkHasCollectionNameMemberExpression; split <;> rfl

theorem checkHasCollectionNameCallExpression_isFindCursor (n : Node)
    (s : CompletionState) :
    (checkHasCollectionNameCallExpression n s).isFindCursor = s.isFindCursor := by
  unfold checkHasCollectionNameCallExpression; split <;> rfl

theorem checkHasStreamProcessorNameMemberExpression_isFindCursor (n : Node)
    (s : CompletionState) :
    (checkHasStreamProcessorNameMemberExpression n s).isFindCursor =
      s.isFindCursor := by
  unfold checkHasStreamProcessorNameMemberExpression; split <;> rfl

theorem checkHasStreamProcessorNameCallExpression_isFindCursor (n : Node)
    (s : CompletionState) :
    (checkHasStreamProcessorNameCallExpression n s).isFindCursor =
      s.isFindCursor := by
  unfold checkHasStreamProcessorNameCallExpression; split <;> rfl

theorem checkIsStageOperator_isFindCursor (n : Node) (s : CompletionState) :
    (checkIsStageOperator n s).isFindCursor = s.isFindCursor := by
  unfold checkIsStageOperator; split
  · rw [stageOp_foldl_eq]
  · rfl

theorem visitMemberExpression_isFindCursor (n : Node) (s : CompletionState) :
    (visitMemberExpression n s).isFindCursor =
      (s.isFindCursor || findCallShape n) := by
  cases n
  case member o p c =>
    simp only [visitMemberExpression, checkHasStreamProcessorName,
      checkIsStreamProcessorNameAsMemberExpression, checkIsStreamProcessorSymbol,
      checkIsStreamProcessorCallExpression, checkIsStreamProcessorMemberExpression,
      checkHasCollectionName, checkIsCollectionNameAsMemberExpression,
      checkIsCollectionSymbol, checkIsCollectionCallExpression,
      checkIsCollectionMemberExpression, checkHasFindCall, checkHasAggregationCall,
      checkHasStreamProcessorNameCallExpression_isFindCursor,
      checkHasStreamProcessorNameMemberExpression_isFindCursor,
      checkHasCollectionNameCallExpression_isFindCursor,
      checkHasCollectionNameMemberExpression_isFindCursor,
      apply_ite CompletionState.isFindCursor, ite_self, ite_true_or]
  all_goals simp [visitMemberExpression, findCallShape]

theorem visitCallExpression_isFindCursor (sel : VisitorSelection) (n : Node)
    (s : CompletionState) :
    (visitCallExpression sel n s).isFindCursor = s.isFindCursor := by
  unfold visitCallExpression
  split
  · rw [checkHasDatabaseName_isFindCursor]
    simp only [checkIsStreamProcessorNameAsCallExpression,
      checkIsCollectionNameAsCallExpression, checkIsUseCall,
      checkIsUseCallAsTemplate, checkIsUseCallAsSimpleString,
      apply_ite CompletionState.isFindCursor, ite_self]
  · rfl

theorem visitExpressionStatement_isFindCursor (n : Node) (s : CompletionState) :
    (visitExpressionStatement n s).isFindCursor = s.isFindCursor := by
  unfold visitExpressionStatement
  split
  · simp only [checkIsSpSymbol, checkIsDbSymbol, checkIsGlobalSymbol,
      apply_ite CompletionState.isFindCursor, ite_self]
  · rfl

theorem visitObjectExpression_isFindCursor (n : Node) (s : CompletionState) :
    (visitObjectExpression n s).isFindCursor = s.isFindCursor := by
  unfold visitObjectExpression
  split
  · simp only [checkIsTextObjectValue, checkIsIdentifierObjectValue,
      checkIsObjectKey, apply_ite CompletionState.isFindCursor, ite_self]
  · rfl

theorem visitArrayExpression_isFindCursor (n : Node) (s : CompletionState) :
    (visitArrayExpression n s).isFindCursor = s.isFindCursor := by
  unfold visitArrayExpression
  split
  · rw [checkIsStageOperator_isFindCursor]
    simp only [checkIsStage, apply_ite CompletionState.isFindCursor, ite_self]
  · rfl

/-- One `enter` step's effect on `isFindCursor`: set exactly by the
find-cursor member-expression shape. -/
theorem enter_isFindCursor (sel : VisitorSelection) (n : Node)
    (s : CompletionState) :
    (enter sel n s).isFindCursor = (s.isFindCursor || findCallShape n) := by
  unfold enter
  rw [visitArrayExpression_isFindCursor, visitObjectExpression_isFindCursor,
    visitExpressionStatement_isFindCursor, visitMemberExpression_isFindCursor,
    visitCallExpression_isFindCursor]

theorem checkHasDatabaseName_isAggregationCursor (sel : VisitorSelection)
    (n : Node) (s : CompletionState) :
    (checkHasDatabaseName sel n s).isAggregationCursor = s.isAggregationCursor := by
  unfold checkHasDatabaseName; split <;> rfl

theorem checkHasCollectionNameMemberExpression_isAggregationCursor (n : Node)
    (s : CompletionState) :
    (checkHasCollectionNameMemberExpression n s).isAggregationCursor =
      s.isAggregationCursor := by
  unfold checkHasCollectionNameMemberExpression; split <;> rfl

theorem checkHasCollectionNameCallExpression_isAggregationCursor (n : Node)
    (s : CompletionState) :
    (checkHasCollectionNameCallExpression n s).isAggregationCursor =
      s.isAggregationCursor := by
  unfold checkHasCollectionNameCallExpression; split <;> rfl

theorem checkHasStreamProcessorNameMemberExpression_isAggregationCursor (n : Node)
    (s : CompletionState) :
    (checkHasStreamProcessorNameMemberExpression n s).isAggregationCursor =
      s.isAggregationCursor := by
  unfold checkHasStreamProcessorNameMemberExpression; split <;> rfl

theorem checkHasStreamProcessorNameCallExpression_isAggregationCursor (n : Node)
    (s : CompletionState) :
    (checkHasStreamProcessorNameCallExpression n s).isAggregationCursor =
      s.isAggregationCursor := by
  unfold checkHasStreamProcessorNameCallExpression; split <;> rfl

theorem checkIsStageOperator_isAggregationCursor (n : Node) (s : CompletionState) :
    (checkIsStageOperator n s).isAggregationCursor = s.isAggregationCursor := by
  unfold checkIsStageOperator; split
  · rw [stageOp_foldl_eq]
  · rfl

theorem visitMemberExpression_isAggregationCursor (n : Node) (s : CompletionState) :
    (visitMemberExpression n s).isAggregationCursor =
      (s.isAggregationCursor || aggregationCallShape n) := by
  cases n
  case member o p c =>
    simp only [visitMemberExpression, checkHasStreamProcessorName,
      checkIsStreamProcessorNameAsMemberExpression, checkIsStreamProcessorSymbol,
      checkIsStreamProcessorCallExpression, checkIsStreamProcessorMemberExpression,
      checkHasCollectionName, checkIsCollectionNameAsMemberExpression,
      checkIsCollectionSymbol, checkIsCollectionCallExpression,
      checkIsCollectionMemberExpression, checkHasFindCall, checkHasAggregationCall,
      checkHasStreamProcessorNameCallExpression_isAggregationCursor,
      checkHasStreamProcessorNameMemberExpression_isAggregationCursor,
      checkHasCollectionNameCallExpression_isAggregationCursor,
      checkHasCollectionNameMemberExpression_isAggregationCursor,
      apply_ite CompletionState.isAggregationCursor, ite_self, ite_true_or]
  all_goals simp [visitMemberExpression, aggregationCallShape]

theorem visitCallExpression_isAggregationCursor (sel : VisitorSelection) (n : Node)
    (s : CompletionState) :
    (visitCallExpression sel n s).isAggregationCursor = s.isAggregationCursor := by
  unfold visitCallExpression
  split
  · rw [checkHasDatabaseName_isAggregationCursor]
    simp only [checkIsStreamProcessorNameAsCallExpression,
      checkIsCollectionNameAsCallExpression, checkIsUseCall,
      checkIsUseCallAsTemplate, checkIsUseCallAsSimpleString,
      apply_ite CompletionState.isAggregationCursor, ite_self]
  · rfl

theorem visitExpressionStatement_isAggregationCursor (n : Node)
    (s : CompletionState) :
    (visitExpressionStatement n s).isAggregationCursor = s.isAggregationCursor := by
  unfold visitExpressionStatement
  split
  · simp only [checkIsSpSymbol, checkIsDbSymbol, checkIsGlobalSymbol,
      apply_ite CompletionState.isAggregationCursor, ite_self]
  · rfl

theorem visitObjectExpression_isAggregationCursor (n : Node)
    (s : CompletionState) :
    (visitObjectExpression n s).isAggregationCursor = s.isAggregationCursor := by
  unfold visitObjectExpression
  split
  · simp only [checkIsTextObjectValue, checkIsIdentifierObjectValue,
      checkIsObjectKey, apply_ite CompletionState.isAggregationCursor, ite_self]
  · rfl

theorem visitArrayExpression_isAggregationCursor (n : Node)
    (s : CompletionState) :
    (visitArrayExpression n s).isAggregationCursor = s.isAggregationCursor := by
  unfold visitArrayExpression
  split
  · rw [checkIsStageOperator_isAggregationCursor]
    simp only [checkIsStage, apply_ite CompletionState.isAggregationCursor, ite_self]
  · rfl

/-- One `enter` step's effect on `isAggregationCursor`. -/
theorem enter_isAggregationCursor (sel : VisitorSelection) (n : Node)
    (s : CompletionState) :
    (enter sel n s).isAggregationCursor =
      (s.isAggregationCursor || aggregationCallShape n) := by
  unfold enter
  rw [visitArrayExpression_isAggregationCursor,
    visitObjectExpression_isAggregationCursor,
    visitExpressionStatement_isAggregationCursor,
    visitMemberExpression_isAggregationCursor,
    visitCallExpression_isAggregationCursor]

theorem checkHasCollectionNameMemberExpression_isStreamProcessorSymbol (n : Node)
    (s : CompletionState) :
    (checkHasCollectionNameMemberExpression n s).isStreamProcessorSymbol =
      s.isStreamProcessorSymbol := by
  unfold checkHasCollectionNameMemberExpression; split <;> rfl

theorem checkHasCollectionNameCallExpression_isStreamProcessorSymbol (n : Node)
    (s : CompletionState) :
    (checkHasCollectionNameCallExpression n s).isStreamProcessorSymbol =
      s.isStreamProcessorSymbol := by
  unfold checkHasCollectionNameCallExpression; split <;> rfl

theorem checkHasStreamProcessorNameMemberExpression_isStreamProcessorSymbol
    (n : Node) (s : CompletionState) :
    (checkHasStreamProcessorNameMemberExpression n s).isStreamProcessorSymbol =
      s.isStreamProcessorSymbol := by
  unfold checkHasStreamProcessorNameMemberExpression; split <;> rfl

theorem checkHasStreamProcessorNameCallExpression_isStreamProcessorSymbol
    (n : Node) (s : CompletionState) :
    (checkHasStreamProcessorNameCallExpression n s).isStreamProcessorSymbol =
      s.isStreamProcessorSymbol := by
  unfold checkHasStreamProcessorNameCallExpression; split <;> rfl

/-- `_visitMemberExpression`'s effect on `isStreamProcessorSymbol` in
closed form: it is set exactly by the nested `sp.<name>.<marker>` and
`sp.getProcessor(…).<marker>` shapes. -/
theorem visitMemberExpression_isStreamProcessorSymbol (n : Node)
    (s : CompletionState) :
    (visitMemberExpression n s).isStreamProcessorSymbol =
      (s.isStreamProcessorSymbol || spSymbolMemberShape n || spSymbolCallShape n) := by
  cases n
  case member o p c =>
    simp only [visitMemberExpression, checkHasStreamProcessorName,
      checkIsStreamProcessorNameAsMemberExpression, checkIsStreamProcessorSymbol,
      checkIsStreamProcessorCallExpression, checkIsStreamProcessorMemberExpression,
      checkHasCollectionName, checkIsCollectionNameAsMemberExpression,
      checkIsCollectionSymbol, checkIsCollectionCallExpression,
      checkIsCollectionMemberExpression, checkHasFindCall, checkHasAggregationCall,
      checkHasStreamProcessorNameCallExpression_isStreamProcessorSymbol,
      checkHasStreamProcessorNameMemberExpression_isStreamProcessorSymbol,
      checkHasCollectionNameCallExpression_isStreamProcessorSymbol,
      checkHasCollectionNameMemberExpression_isStreamProcessorSymbol,
      apply_ite CompletionState.isStreamProcessorSymbol, ite_self, ite_true_or]
  all_goals simp [visitMemberExpression, spSymbolMemberShape, spSymbolCallShape]

/-- Full-state effect of `_visitMemberExpression` on a marker member
access off bare `sp`: exactly `isSpSymbol` and `isStreamProcessorName`
are set. -/
theorem visitMemberExpression_sp_marker (p : Node) (c : Bool)
    (s : CompletionState) (hp : propertyContainsPlaceholder p = true) :
    visitMemberExpression (.member (.ident "sp") p c) s =
      { s with isSpSymbol := true, isStreamProcessorName := true } := by
  simp [visitMemberExpression, checkHasStreamProcessorName,
    checkHasStreamProcessorNameCallExpression, streamProcessorNameCallArg,
    checkHasStreamProcessorNameMemberExpression, streamProcessorNameMemberArg,
    checkIsStreamProcessorNameAsMemberExpression, spNameMemberShape,
    checkIsStreamProcessorSymbol, checkIsStreamProcessorCallExpression,
    spSymbolCallShape, checkIsStreamProcessorMemberExpression, spSymbolMemberShape,
    checkHasCollectionName, checkHasCollectionNameCallExpression,
    collectionNameCallArg, checkHasCollectionNameMemberExpression,
    collectionNameMemberArg, checkIsCollectionNameAsMemberExpression,
    collectionNameMemberShape, checkIsCollectionSymbol,
    checkIsCollectionCallExpression, collectionSymbolCallShape,
    checkIsCollectionMemberExpression, collectionSymbolMemberShape,
    checkHasFindCall, findCallShape, checkHasAggregationCall, aggregationCallShape,
    hp]

/-- Full-state effect of `_visitMemberExpression` on a marker member
access off bare `db`: only `isCollectionName` is set. -/
theorem visitMemberExpression_db_marker (p : Node) (c : Bool)
    (s : CompletionState) (hp : propertyContainsPlaceholder p = true) :
    visitMemberExpression (.member (.ident "db") p c) s =
      { s with isCollectionName := true } := by
  simp [visitMemberExpression, checkHasStreamProcessorName,
    checkHasStreamProcessorNameCallExpression, streamProcessorNameCallArg,
    checkHasStreamProcessorNameMemberExpression, streamProcessorNameMemberArg,
    checkIsStreamProcessorNameAsMemberExpression, spNameMemberShape,
    checkIsStreamProcessorSymbol, checkIsStreamProcessorCallExpression,
    spSymbolCallShape, checkIsStreamProcessorMemberExpression, spSymbolMemberShape,
    checkHasCollectionName, checkHasCollectionNameCallExpression,
    collectionNameCallArg, checkHasCollectionNameMemberExpression,
    collectionNameMemberArg, checkIsCollectionNameAsMemberExpression,
    collectionNameMemberShape, checkIsCollectionSymbol,
    checkIsCollectionCallExpression, collectionSymbolCallShape,
    checkIsCollectionMemberExpression, collectionSymbolMemberShape,
    checkHasFindCall, findCallShape, checkHasAggregationCall, aggregationCallShape,
    hp]

/-- Projection of the monotonicity order onto `isFindCursor`. -/
theorem StateLe.findCursor {s t : CompletionState} (h : StateLe s t) :
    s.isFindCursor = true → t.isFindCursor = true :=
  h.2.2.2.2.2.2.2.2.2.2.2.2.2.2.2.2

/-- Projection of the monotonicity order onto `isAggregationCursor`. -/
theorem StateLe.aggregationCursor {s t : CompletionState} (h : StateLe s t) :
    s.isAggregationCursor = true → t.isAggregationCursor = true :=
  h.2.2.2.2.2.2.2.2.2.2.2.2.2.2.2.1

/-!  The claims. -/

/-- C1: for every input text and position, if parsing the
marker-injected text fails, `parseASTForCompletion` returns the
all-defaults `CompletionState` (all name fields null, all boolean flags
false, `stageOperator` null); totality of the embedding reflects that
no exception propagates (the TS `catch` swallows the parser error and
`traverse(undefined, …)` is a no-op). -/
theorem parse_failure_yields_defaults (parse : ParseFn) (v : Visitor)
    (text : String) (pos : Position)
    (h : parse (handleTriggerCharacter text pos) = none) :
    (Visitor.parseASTForCompletion parse v text pos).2 =
      getDefaultsForCompletion := by
  simp [Visitor.parseASTForCompletion, Visitor.parseAST, h]

/-- Witness for C1 at a concrete failing parse. -/
theorem parse_failure_yields_defaults_witness :
    ((fun _ => none : ParseFn) (handleTriggerCharacter "db." ⟨0, 3⟩) = none) ∧
    (Visitor.parseASTForCompletion (fun _ => none) Visitor.mk' "db." ⟨0, 3⟩).2 =
      getDefaultsForCompletion :=
  ⟨rfl, parse_failure_yields_defaults (fun _ => none) Visitor.mk' "db." ⟨0, 3⟩ rfl⟩

/-- C2, counterexample: on `db.` with the cursor at character 3 (the
member access off bare `db` whose property is the marker),
`parseASTForCompletion` does NOT satisfy the claimed
`isCollectionSymbol = true ∧ isCollectionName = true`:
`_checkIsCollectionSymbol` requires the object to be `db.<name>` or a
`db.getCollection(…)` call, never the bare identifier `db`, so
`isCollectionSymbol` stays false. -/
theorem db_member_access_claim_counterexample :
    ¬((Visitor.parseASTForCompletion (fun _ => some dbDotProg) Visitor.mk'
        "db." ⟨0, 3⟩).2.isCollectionSymbol = true ∧
      (Visitor.parseASTForCompletion (fun _ => some dbDotProg) Visitor.mk'
        "db." ⟨0, 3⟩).2.isCollectionName = true) := by
  decide

/-- C2, amended: for `db.<CURSOR>`, `parseASTForCompletion` returns a
state with `isCollectionName = true` (and `isDbSymbol = true` from the
enclosing expression statement), while `isCollectionSymbol` is false. -/
theorem db_member_access_completion (parse : ParseFn) (v : Visitor)
    (h : parse (handleTriggerCharacter "db." ⟨0, 3⟩) = some dbDotProg) :
    ((Visitor.parseASTForCompletion parse v "db." ⟨0, 3⟩).2.isCollectionName
        = true)
    ∧ ((Visitor.parseASTForCompletion parse v "db." ⟨0, 3⟩).2.isDbSymbol = true)
    ∧ ((Visitor.parseASTForCompletion parse v "db." ⟨0, 3⟩).2.isCollectionSymbol
        = false) := by
  simp [Visitor.parseASTForCompletion, Visitor.parseAST, h]
  decide

/-- Witness for C2's amended theorem at the modelled Babel parse. -/
theorem db_member_access_completion_witness :
    ((Visitor.parseASTForCompletion (fun _ => some dbDotProg) Visitor.mk'
        "db." ⟨0, 3⟩).2.isCollectionName = true)
    ∧ ((Visitor.parseASTForCompletion (fun _ => some dbDotProg) Visitor.mk'
        "db." ⟨0, 3⟩).2.isDbSymbol = true)
    ∧ ((Visitor.parseASTForCompletion (fun _ => some dbDotProg) Visitor.mk'
        "db." ⟨0, 3⟩).2.isCollectionSymbol = false) :=
  db_member_access_completion (fun _ => some dbDotProg) Visitor.mk' rfl

/-- C3, counterexample: on `db.coll.aggregate([{ $match: { <CURSOR> } }])`
the claimed conjunction fails, because `_checkIsStage` only fires when
the marker is a key of an object that is itself an array element; here
the array element's only key is `$match`, so `isStage` stays false
(while `stageOperator` and `isObjectKey` are set as claimed). -/
theorem match_stage_claim_counterexample :
    ¬((Visitor.parseASTForCompletion (fun _ => some aggProg) Visitor.mk'
        "db.coll.aggregate([{ $match: {  } }])" ⟨0, 31⟩).2.isStage = true ∧
      (Visitor.parseASTForCompletion (fun _ => some aggProg) Visitor.mk'
        "db.coll.aggregate([{ $match: {  } }])" ⟨0, 31⟩).2.stageOperator
          = some "$match" ∧
      (Visitor.parseASTForCompletion (fun _ => some aggProg) Visitor.mk'
        "db.coll.aggregate([{ $match: {  } }])" ⟨0, 31⟩).2.isObjectKey
          = true) := by
  decide

/-- C3, amended: for `db.coll.aggregate([{ $match: { <CURSOR> } }])`,
`parseASTForCompletion` returns `stageOperator = "$match"` and
`isObjectKey = true`, but `isStage = false` (`isStage` requires the
marker to be a key at the top level of a stage object). -/
theorem match_stage_completion (parse : ParseFn) (v : Visitor)
    (h : parse (handleTriggerCharacter
        "db.coll.aggregate([{ $match: {  } }])" ⟨0, 31⟩) = some aggProg) :
    ((Visitor.parseASTForCompletion parse v
        "db.coll.aggregate([{ $match: {  } }])" ⟨0, 31⟩).2.stageOperator
        = some "$match")
    ∧ ((Visitor.parseASTForCompletion parse v
        "db.coll.aggregate([{ $match: {  } }])" ⟨0, 31⟩).2.isObjectKey = true)
    ∧ ((Visitor.parseASTForCompletion parse v
        "db.coll.aggregate([{ $match: {  } }])" ⟨0, 31⟩).2.isStage = false) := by
  simp [Visitor.parseASTForCompletion, Visitor.parseAST, h]
  decide

/-- Witness for C3's amended theorem at the modelled Babel parse. -/
theorem match_stage_completion_witness :
    ((Visitor.parseASTForCompletion (fun _ => some aggProg) Visitor.mk'
        "db.coll.aggregate([{ $match: {  } }])" ⟨0, 31⟩).2.stageOperator
        = some "$match")
    ∧ ((Visitor.parseASTForCompletion (fun _ => some aggProg) Visitor.mk'
        "db.coll.aggregate([{ $match: {  } }])" ⟨0, 31⟩).2.isObjectKey = true)
    ∧ ((Visitor.parseASTForCompletion (fun _ => some aggProg) Visitor.mk'
        "db.coll.aggregate([{ $match: {  } }])" ⟨0, 31⟩).2.isStage = false) :=
  match_stage_completion (fun _ => some aggProg) Visitor.mk' rfl

/-- C4: for every script, `parseASTForCompletion` resolves
`databaseName` to the last (in enter order, which is source order)
`use("literal")` call with a single string-literal argument whose end
lies strictly before the cursor's line, or on the cursor's line with
end column at or before the cursor character (`useCallDatabaseArg`
mirrors `_checkHasDatabaseName`'s guard); with no qualifying call it
stays null. -/
theorem use_call_sets_database_name (parse : ParseFn) (v : Visitor)
    (text : String) (pos : Position) (prog : Program)
    (h : parse (handleTriggerCharacter text pos) = some prog) :
    (Visitor.parseASTForCompletion parse v text pos).2.databaseName =
      ((preorderList prog).filterMap
        (useCallDatabaseArg
          { start := pos, stop := { line := 0, character := 0 } })).getLast? := by
  have hres : (Visitor.parseASTForCompletion parse v text pos).2 =
      runTraversal { start := pos, stop := { line := 0, character := 0 } } prog
        getDefaultsForCompletion := by
    simp [Visitor.parseASTForCompletion, Visitor.parseAST, h]
  rw [hres, runTraversal, runEnter_databaseName]
  cases ((preorderList prog).filterMap _).getLast? <;>
    simp [Option.or, getDefaultsForCompletion]

/-- Witness for C4: `use("db")` then `use("db2")`, both before the
cursor on line 2, yield `databaseName = "db2"` — the later call wins. -/
theorem use_call_sets_database_name_witness :
    (Visitor.parseASTForCompletion (fun _ => some useProg) Visitor.mk'
      "use(\"db\")\nuse(\"db2\")\n" ⟨2, 0⟩).2.databaseName = some "db2" :=
  (use_call_sets_database_name (fun _ => some useProg) Visitor.mk'
    "use(\"db\")\nuse(\"db2\")\n" ⟨2, 0⟩ useProg rfl).trans (by decide)

/-- C6: whenever the parsed tree contains a member expression whose
object is a call expression with a non-computed member callee named
`find` (respectively `aggregate`) and whose own property name contains
the marker (`findCallShape` / `aggregationCallShape`),
`parseASTForCompletion` sets `isFindCursor` (respectively
`isAggregationCursor`). -/
theorem cursor_method_completion (parse : ParseFn) (v : Visitor) (text : String)
    (pos : Position) (prog : Program) (n : Node)
    (hparse : parse (handleTriggerCharacter text pos) = some prog)
    (hmem : n ∈ preorderList prog) :
    (findCallShape n = true →
      (Visitor.parseASTForCompletion parse v text pos).2.isFindCursor = true) ∧
    (aggregationCallShape n = true →
      (Visitor.parseASTForCompletion parse v text pos).2.isAggregationCursor
        = true) := by
  have hres : (Visitor.parseASTForCompletion parse v text pos).2 =
      runTraversal { start := pos, stop := { line := 0, character := 0 } } prog
        getDefaultsForCompletion := by
    simp [Visitor.parseASTForCompletion, Visitor.parseAST, hparse]
  obtain ⟨l1, l2, hsplit⟩ := List.append_of_mem hmem
  have hrun : runTraversal { start := pos, stop := { line := 0, character := 0 } }
      prog getDefaultsForCompletion =
      runEnter { start := pos, stop := { line := 0, character := 0 } }
        (enter { start := pos, stop := { line := 0, character := 0 } } n
          (runEnter { start := pos, stop := { line := 0, character := 0 } }
            getDefaultsForCompletion l1)) l2 := by
    rw [runTraversal, hsplit, runEnter, List.foldl_append]
    rfl
  constructor
  · intro hshape
    rw [hres, hrun]
    refine (stateLe_runEnter _ _ l2).findCursor ?_
    rw [enter_isFindCursor, hshape, Bool.or_true]
  · intro hshape
    rw [hres, hrun]
    refine (stateLe_runEnter _ _ l2).aggregationCursor ?_
    rw [enter_isAggregationCursor, hshape, Bool.or_true]

/-- Witness for C6: `db.coll.find({}).<CURSOR>` yields
`isFindCursor = true`. -/
theorem cursor_method_completion_witness :
    (Visitor.parseASTForCompletion (fun _ => some findProg) Visitor.mk'
      "db.coll.find({})." ⟨0, 17⟩).2.isFindCursor = true :=
  (cursor_method_completion (fun _ => some findProg) Visitor.mk'
    "db.coll.find({})." ⟨0, 17⟩ findProg findCursorNode rfl
    (by apply List.Mem.tail; exact List.Mem.head _)).1 (by decide)

/-- C5: `_handleTriggerCharacter` rewrites only the cursor's line —
the line count is unchanged and every other line passes through — and
at character offset 0 the cursor's line becomes the marker followed by
the original full line (total, so no exception; the only JS throw
condition, an out-of-range line index, is excluded by `hline`).  Stated
on the split line list; `handleTriggerCharacter` is its join. -/
theorem handle_trigger_character_frame (textLines : List String)
    (pos : Position) (i : Nat) (hline : pos.line < textLines.length) :
    ((handleTriggerCharacterLines textLines pos).length = textLines.length)
    ∧ (i ≠ pos.line →
        (handleTriggerCharacterLines textLines pos).getD i "" =
          textLines.getD i "")
    ∧ (pos.character = 0 →
        (handleTriggerCharacterLines textLines pos).getD pos.line "" =
          PLACEHOLDER ++ textLines.getD pos.line "") := by
  refine ⟨by simp [handleTriggerCharacterLines], ?_, ?_⟩
  · intro hi
    simp only [handleTriggerCharacterLines, List.getD, List.get?_eq_getElem?]
    rw [List.getElem?_set]
    simp [Ne.symm hi]
  · intro hc
    simp only [handleTriggerCharacterLines, hc, List.getD, List.get?_eq_getElem?]
    rw [List.getElem?_set]
    simp [hline]

/-- Witness for C5 on `["ab", "cd"]` with the cursor at line 0,
character 0. -/
theorem handle_trigger_character_frame_witness :
    (handleTriggerCharacterLines ["ab", "cd"] ⟨0, 0⟩).getD 1 "" = "cd"
    ∧ (handleTriggerCharacterLines ["ab", "cd"] ⟨0, 0⟩).getD 0 ""
        = "TRIGGER_CHARACTERab"
    ∧ (handleTriggerCharacterLines ["ab", "cd"] ⟨0, 0⟩).length = 2 :=
  ⟨((handle_trigger_character_frame ["ab", "cd"] ⟨0, 0⟩ 1 (by decide)).2.1
      (by decide)).trans (by decide),
   ((handle_trigger_character_frame ["ab", "cd"] ⟨0, 0⟩ 1 (by decide)).2.2
      rfl).trans (by decide),
   ((handle_trigger_character_frame ["ab", "cd"] ⟨0, 0⟩ 1 (by decide)).1).trans
      (by decide)⟩

/-- C7: the completion state evolves monotonically during one
traversal — one `enter` step (the per-node battery of checks) never
resets a boolean flag to false nor a name field to null (`StateLe`),
and likewise for any extension of a partial traversal. -/
theorem completion_state_monotone (sel : VisitorSelection) (n : Node)
    (s : CompletionState) (ns ms : List Node) :
    StateLe s (enter sel n s) ∧
    StateLe (runEnter sel s ns) (runEnter sel s (ns ++ ms)) := by
  refine ⟨stateLe_enter sel n s, ?_⟩
  simp only [runEnter]
  rw [List.foldl_append]
  exact stateLe_runEnter sel _ ms

/-- Witness for C7 at a concrete step and traversal extension. -/
theorem completion_state_monotone_witness :
    StateLe getDefaultsForCompletion
        (enter ⟨⟨0, 0⟩, ⟨0, 0⟩⟩ (.ident "x") getDefaultsForCompletion) ∧
    StateLe (runEnter ⟨⟨0, 0⟩, ⟨0, 0⟩⟩ getDefaultsForCompletion [])
        (runEnter ⟨⟨0, 0⟩, ⟨0, 0⟩⟩ getDefaultsForCompletion
          ([] ++ [.ident "x"])) :=
  completion_state_monotone ⟨⟨0, 0⟩, ⟨0, 0⟩⟩ (.ident "x")
    getDefaultsForCompletion [] [.ident "x"]

/-- C8: `parseASTForCompletion` is deterministic — the result is
independent of the visitor's prior `_state`/`_selection` (the state is
re-initialised to defaults at the start of each call), so two
invocations on fresh visitors, or a repeat invocation on the same
visitor, return equal `CompletionState` records. -/
theorem parse_for_completion_deterministic (parse : ParseFn) (text : String)
    (pos : Position) (v₁ v₂ : Visitor) :
    ((Visitor.parseASTForCompletion parse v₁ text pos).2 =
      (Visitor.parseASTForCompletion parse v₂ text pos).2) ∧
    ((Visitor.parseASTForCompletion parse
        (Visitor.parseASTForCompletion parse v₁ text pos).1 text pos).2 =
      (Visitor.parseASTForCompletion parse v₁ text pos).2) := by
  cases h : parse (handleTriggerCharacter text pos) <;>
    simp [Visitor.parseASTForCompletion, Visitor.parseAST, h]

/-- C9: `_isWithinSelection` tests each column for JavaScript
truthiness before comparing, so a node whose start column or end
column is 0 is never reported as within the selection, whatever the
selection — in particular a node beginning at the first character of a
line. -/
theorem zero_column_never_within_selection (l : Loc) (sel : VisitorSelection)
    (h : l.startColumn = 0 ∨ l.endColumn = 0) :
    isWithinSelection (some l) sel = false := by
  rcases h with h | h <;> simp [isWithinSelection, h]

/-- Witness for C9: a node spanning line 1, columns 0–5 is not within
the selection (0,0)–(0,6) that geometrically contains it. -/
theorem zero_column_never_within_selection_witness :
    (⟨1, 0, 1, 5⟩ : Loc).startColumn = 0 ∧
    isWithinSelection (some ⟨1, 0, 1, 5⟩) ⟨⟨0, 0⟩, ⟨0, 6⟩⟩ = false :=
  ⟨rfl, zero_column_never_within_selection ⟨1, 0, 1, 5⟩ ⟨⟨0, 0⟩, ⟨0, 6⟩⟩
    (Or.inl rfl)⟩

/-- C10: for a member access off bare `sp` whose property (identifier
or string literal) contains the marker, the member-expression battery
sets both `isSpSymbol` and `isStreamProcessorName` and nothing else —
in particular not `isStreamProcessorSymbol`, which is set exactly by
the nested `sp.<name>.<marker>` / `sp.getProcessor(…).<marker>` shapes
— asymmetric with the bare-`db` case, which sets only
`isCollectionName`. -/
theorem sp_bare_member_asymmetry (s : CompletionState) (p : Node) (c : Bool)
    (n : Node) (hp : propertyContainsPlaceholder p = true) :
    (visitMemberExpression (.member (.ident "sp") p c) s =
      { s with isSpSymbol := true, isStreamProcessorName := true }) ∧
    (visitMemberExpression (.member (.ident "db") p c) s =
      { s with isCollectionName := true }) ∧
    ((visitMemberExpression n s).isStreamProcessorSymbol =
      (s.isStreamProcessorSymbol || spSymbolMemberShape n ||
        spSymbolCallShape n)) :=
  ⟨visitMemberExpression_sp_marker p c s hp,
   visitMemberExpression_db_marker p c s hp,
   visitMemberExpression_isStreamProcessorSymbol n s⟩

/-- Witness for C10 at the marker identifier property. -/
theorem sp_bare_member_asymmetry_witness :
    (visitMemberExpression
        (.member (.ident "sp") (.ident "TRIGGER_CHARACTER") false)
        getDefaultsForCompletion =
      { getDefaultsForCompletion with
          isSpSymbol := true, isStreamProcessorName := true }) ∧
    (visitMemberExpression
        (.member (.ident "db") (.ident "TRIGGER_CHARACTER") false)
        getDefaultsForCompletion =
      { getDefaultsForCompletion with isCollectionName := true }) ∧
    ((visitMemberExpression
        (.member (.ident "sp") (.ident "TRIGGER_CHARACTER") false)
        getDefaultsForCompletion).isStreamProcessorSymbol =
      (getDefaultsForCompletion.isStreamProcessorSymbol ||
        spSymbolMemberShape
          (.member (.ident "sp") (.ident "TRIGGER_CHARACTER") false) ||
        spSymbolCallShape
          (.member (.ident "sp") (.ident "TRIGGER_CHARACTER") false))) :=
  sp_bare_member_asymmetry getDefaultsForCompletion
    (.ident "TRIGGER_CHARACTER") false
    (.member (.ident "sp") (.ident "TRIGGER_CHARACTER") false) (by decide)

end MongoVisitor
